import Mathlib

/-!
Shallow embedding of the external-resource reconciliation core of
crossplane/stack-gcp: the CloudSQL-instance controller
(pkg/controller/database/cloudsql.go) and the Network controller
(pkg/controller/compute, provided unnamed). Effectful Go code is embedded as
pure functions over an explicit environment of provider/credential-store
responses; side effects (durable writes, provider calls) are recorded as
trace fields in each operation's result.
-/

deriving instance DecidableEq for Except

/-- Go `error` values as they appear in the two controllers: `errors.New`
creates a message error, `errors.Wrap` nests an error under a message, and
`googleapi.Error` carries an HTTP status code. -/
inductive GoErr where
  | new (msg : String)
  | wrap (msg : String) (inner : GoErr)
  | api (code : Nat) (msg : String)
deriving DecidableEq, Repr

/-- Modelled from the spec: `gcp.IsErrorNotFound` (pkg/clients, not under
src/) recognises a provider "not found" outcome, i.e. a googleapi error
whose HTTP code is 404. Any non-api error (including nil) is not NotFound. -/
def IsErrorNotFound : GoErr → Bool
  | .api code _ => code = 404
  | _ => false

/-- Modelled from the spec: `gcp.IsErrorAlreadyExists` (pkg/clients, not
under src/) recognises a provider "already exists" outcome, i.e. a googleapi
error whose HTTP code is 409 (Conflict). -/
def IsErrorAlreadyExists : GoErr → Bool
  | .api code _ => code = 409
  | _ => false

/-- `resource.Ignore(is, err)` from crossplane-runtime: drops the error when
the predicate matches it, passes it through otherwise; `nil` stays `nil`. -/
def Ignore (p : GoErr → Bool) : Option GoErr → Option GoErr
  | none => none
  | some e => if p e then none else some e

/-- Go's `IsErrorNotFound` applied to a possibly-nil error: a nil error is
never a googleapi NotFound. -/
def IsErrorNotFoundO : Option GoErr → Bool
  | none => false
  | some e => IsErrorNotFound e

/-- `errors.Wrap(err, msg)`: nil in, nil out; otherwise nests the error. -/
def wrapErr (msg : String) : Option GoErr → Option GoErr
  | none => none
  | some e => some (.wrap msg e)

/-! ### Error-message constants transcribed from the two Go files. -/

def errNotCloudsql : String := "managed resource is not a CloudsqlInstance CR"

def errProviderNotRetrieved : String := "provider could not be retrieved"

def errProviderSecretNotRetrieved : String := "secret referred in provider could not be retrieved"

def errManagedUpdateFailed : String := "cannot update CloudsqlInstance CR"

def errConnectionNotRetrieved : String := "cannot get connection details"

def errNewClientSQL : String := "cannot create new Sqladmin Service"

def errInsertFailed : String := "cannot insert new Cloudsql instance"

def errDeleteFailed : String := "cannot delete the Cloudsql instance"

def errPatchFailed : String := "cannot patch the Cloudsql instance"

def errGetFailed : String := "cannot get the Cloudsql instance"

def errUpdateRootFailed : String := "cannot update root user credentials"

def errNewClientCompute : String := "cannot create new Compute Service"

def errNotNetwork : String := "managed resource is not a Network resource"

def errNameNotGiven : String := "name for networkExternal resource is not provided"

/-! ### CloudSQL data model. -/

/-- Modelled from the spec: the lifecycle-state constants of the CloudSQL
instance API (`v1alpha2.State...`, apis package, not under src/); provider
defined phase strings, pairwise distinct. -/
def StateRunnable : String := "RUNNABLE"

/-- Modelled from the spec: see `StateRunnable`. -/
def StateCreating : String := "PENDING_CREATE"

/-- Modelled from the spec: see `StateRunnable`. -/
def StateCreationFailed : String := "FAILED"

/-- Modelled from the spec: see `StateRunnable`. -/
def StateSuspended : String := "SUSPENDED"

/-- Modelled from the spec: see `StateRunnable`. -/
def StateMaintenance : String := "MAINTENANCE"

/-- Modelled from the spec: see `StateRunnable`. -/
def StateUnknownState : String := "UNKNOWN_STATE"

/-- Modelled from the spec: the address-type constants
(`v1alpha2.PrivateIPType` / `v1alpha2.PublicIPType`, apis package, not under
src/): two distinct provider-defined address-type tags. -/
def PrivateIPType : String := "PRIVATE"

/-- Modelled from the spec: see `PrivateIPType`. -/
def PublicIPType : String := "PRIMARY"

/-- Modelled from the spec: `v1alpha2.PasswordLength` (apis package, not
under src/), the fixed minimum-length policy for generated root passwords. -/
def PasswordLength : Nat := 20

/-- One entry of `DatabaseInstance.IpAddresses` / `Status.AtProvider.IPAddresses`:
an address-type tag and the address string. -/
structure IPAddressStatus where
  type : String
  ipAddress : String
deriving DecidableEq, Repr

/-- The declared configuration `Spec.ForProvider`
(`v1alpha2.CloudsqlInstanceParameters`). Optional fields are `Option`s:
`none` is a field the user left unset. Representative optional fields kept;
the late-initialization and deep-equality logic is uniform in them. -/
structure CloudsqlInstanceParameters where
  region : Option String := none
  databaseVersion : Option String := none
  tier : Option String := none
  diskSizeGb : Option Nat := none
deriving DecidableEq, Repr

/-- The provider-native `sqladmin.DatabaseInstance` snapshot returned by
`db.Get`. Go zero values (empty string, 0) mark fields the provider did not
report. -/
structure DatabaseInstance where
  name : String := ""
  state : String := ""
  region : String := ""
  databaseVersion : String := ""
  tier : String := ""
  diskSizeGb : Nat := 0
  ipAddresses : List IPAddressStatus := []
deriving DecidableEq, Repr

/-- The observed status copied into `Status.AtProvider`
(`v1alpha2.CloudsqlInstanceObservation`). -/
structure CloudsqlInstanceObservation where
  state : String := ""
  ipAddresses : List IPAddressStatus := []
deriving DecidableEq, Repr

/-- Condition markers set on the status sub-record via
`v1alpha1.Available() / Creating() / Unavailable()`. -/
inductive ConditionType where
  | available
  | creating
  | unavailable
deriving DecidableEq, Repr

/-- The CloudsqlInstance managed record: external name, declared spec,
observed status, Ready condition marker, binding flags, and the connection
secret reference. -/
structure CloudsqlInstance where
  externalName : String := ""
  forProvider : CloudsqlInstanceParameters := {}
  atProvider : CloudsqlInstanceObservation := {}
  readyCondition : Option ConditionType := none
  bound : Bool := false
  bindable : Bool := false
  writeConnSecretName : String := ""
  crNamespace : String := ""
deriving DecidableEq, Repr

/-- Modelled from the spec: `cloudsql.GenerateObservation` (pkg/clients,
not under src/) copies the provider snapshot into the status sub-record. -/
def GenerateObservation (inst : DatabaseInstance) : CloudsqlInstanceObservation :=
  { state := inst.state, ipAddresses := inst.ipAddresses }

/-- Per-field late-initialization for a string-typed optional field: copy
the observed value only when the spec field is unset and the provider
reported a concrete (non-zero) value. -/
def lateInitString (s : Option String) (o : String) : Option String :=
  match s with
  | some v => some v
  | none => if o = "" then none else some o

/-- Per-field late-initialization for a numeric optional field; the provider
zero value counts as "not reported". -/
def lateInitNat (s : Option Nat) (o : Nat) : Option Nat :=
  match s with
  | some v => some v
  | none => if o = 0 then none else some o

/-- Modelled from the spec: `cloudsql.LateInitializeSpec` (pkg/clients, not
under src/): for every optional field in record.spec left unset by the user,
if ObservedState carries an equivalent concrete value, copy it into
record.spec; never overwrite a field the user has set. -/
def LateInitializeSpec (s : CloudsqlInstanceParameters) (o : DatabaseInstance) :
    CloudsqlInstanceParameters :=
  { region := lateInitString s.region o.region
    databaseVersion := lateInitString s.databaseVersion o.databaseVersion
    tier := lateInitString s.tier o.tier
    diskSizeGb := lateInitNat s.diskSizeGb o.diskSizeGb }

/-- Modelled from the spec: `cloudsql.GenerateDatabaseInstance` (pkg/clients,
not under src/) translates record.spec into a provider-native creation
payload tagged with the record's external name. -/
def GenerateDatabaseInstance (p : CloudsqlInstanceParameters) (name : String) :
    DatabaseInstance :=
  { name := name
    region := p.region.getD ""
    databaseVersion := p.databaseVersion.getD ""
    tier := p.tier.getD ""
    diskSizeGb := p.diskSizeGb.getD 0 }

/-- Modelled from the spec: `cr.DatabaseUserName()` (apis package, not under
src/), a fixed root username derived deterministically from the record. -/
def DatabaseUserName (cr : CloudsqlInstance) : String :=
  "root-" ++ cr.externalName

/-- A credential-store secret: its key-value data. Go map lookups on missing
keys yield the zero value, so lookup defaults to the empty string. -/
structure Secret where
  data : List (String × String) := []
deriving DecidableEq, Repr

/-- `s.Data[key]` — Go map read with zero-value default. -/
def Secret.getData (s : Secret) (key : String) : String :=
  (s.data.lookup key).getD ""

/-- The fixed secret key under which the root password is persisted
(`v1alpha1.ResourceCredentialsSecretPasswordKey`). -/
def passwordKey : String := "password"

/-- The ConnectionDetails map. Only five well-known keys are ever written
(`username`, `password`, `privateIP`, `publicIP`, `endpoint`), so the map is
embedded as one optional field per key; `none` means the key is absent. -/
structure ConnectionDetails where
  username : Option String := none
  password : Option String := none
  privateIP : Option String := none
  publicIP : Option String := none
  endpoint : Option String := none
deriving DecidableEq, Repr

/-- Go's `len(m[k]) == 0`: true when the key is absent or maps to an empty
value. -/
def lenZero : Option String → Bool
  | none => true
  | some s => s = ""

/-- One iteration of the address loop in `getConnectionDetails`: a
private-type address claims the privateIP key and unconditionally the
endpoint key; a public-type address claims the publicIP key and the endpoint
key only if it is still empty. -/
def addIP (m : ConnectionDetails) (ip : IPAddressStatus) : ConnectionDetails :=
  let m1 :=
    if ip.type = PrivateIPType then
      { m with privateIP := some ip.ipAddress, endpoint := some ip.ipAddress }
    else m
  if ip.type = PublicIPType then
    let m2 := { m1 with publicIP := some ip.ipAddress }
    if lenZero m2.endpoint then { m2 with endpoint := some ip.ipAddress } else m2
  else m1

/-- A remote database account as listed by the sqladmin Users service
(`sqladmin.User`: Name, Host, Password). -/
structure SqlUser where
  name : String := ""
  host : String := ""
  password : String := ""
deriving DecidableEq, Repr

/-- Modelled from the spec: `util.GeneratePassword` (crossplane-runtime, an
external collaborator): a random-password generator with a configurable
length; the randomness source is the explicit `entropy` stream, and the
result always has exactly the requested length. -/
def GeneratePassword (length : Nat) (entropy : Nat → Char) : String :=
  String.mk ((List.range length).map entropy)

/-- The provider / credential-store responses one CloudSQL reconciliation
pass can observe: each field is the outcome of the corresponding external
call, should the code reach it. -/
structure CloudsqlEnv where
  dbGet : Except GoErr DatabaseInstance := .error (.api 404 "not found")
  kubeUpdateErr : Option GoErr := none
  secretGet : Except GoErr Secret := .ok {}
  userList : Except GoErr (List SqlUser) := .ok []
  entropy : Nat → Char := fun _ => 'x'
  userUpdateErr : Option GoErr := none
  insertErr : Option GoErr := none
  patchErr : Option GoErr := none
  deleteErr : Option GoErr := none

/-- `cloudsqlExternal.getConnectionDetails`: start from the derived
username, merge a previously-persisted non-empty password from the target
secret (a NotFound secret read is ignored, leaving a zero-value secret), and
fold the address-selection loop over the observed addresses. -/
def getConnectionDetails (env : CloudsqlEnv) (cr : CloudsqlInstance) :
    Except GoErr ConnectionDetails :=
  let m : ConnectionDetails := { username := some (DatabaseUserName cr) }
  let getErr : Option GoErr := match env.secretGet with
    | .ok _ => none
    | .error e => some e
  match Ignore IsErrorNotFound getErr with
  | some e => .error e
  | none =>
    let s : Secret := match env.secretGet with
      | .ok s => s
      | .error _ => {}
    let m :=
      if s.getData passwordKey ≠ "" then
        { m with password := some (s.getData passwordKey) }
      else m
    .ok (cr.atProvider.ipAddresses.foldl addIP m)

/-- Result of `cloudsqlExternal.updateRootCredentials`: the connection
details handed back, the account-update calls pushed to the provider (each
carrying the password being set), whether the password generator ran, and
the returned error. -/
structure RootCredResult where
  conn : Option ConnectionDetails := none
  pushed : List SqlUser := []
  generatorCalled : Bool := false
  err : Option GoErr := none
deriving DecidableEq, Repr

/-- `cloudsqlExternal.updateRootCredentials`: list remote accounts, find the
one matching the derived username (a missing match is a 404 error), reuse
the persisted non-empty password from connection details or else generate a
fresh one and stage it, then push the password via one account update. -/
def updateRootCredentials (env : CloudsqlEnv) (cr : CloudsqlInstance) : RootCredResult :=
  match env.userList with
  | .error e => { err := some e }
  | .ok users =>
    match users.find? (fun u => u.name == DatabaseUserName cr) with
    | none =>
      { err := some (.api 404 ("user: " ++ DatabaseUserName cr ++ " is not found")) }
    | some rootUser =>
      match getConnectionDetails env cr with
      | .error e => { err := some e }
      | .ok conn =>
        let password := conn.password.getD ""
        if password = "" then
          let p := GeneratePassword PasswordLength env.entropy
          { conn := some { conn with password := some p }
            pushed := [{ rootUser with password := p }]
            generatorCalled := true
            err := env.userUpdateErr }
        else
          { conn := some conn
            pushed := [{ rootUser with password := password }]
            generatorCalled := false
            err := env.userUpdateErr }

/-- `resource.ExternalObservation` with its Go zero value as default. -/
structure ExternalObservation where
  resourceExists : Bool := false
  resourceUpToDate : Bool := false
  connectionDetails : Option ConnectionDetails := none
deriving DecidableEq, Repr

/-- Result of an Observe call over a record of type ρ: the observation, the
record as left in memory, whether a durable kube update was issued, whether
connection-detail derivation was attempted, and the returned error. -/
structure ObserveResult (ρ : Type) where
  record : ρ
  obs : ExternalObservation := {}
  kubeUpdated : Bool := false
  connAttempted : Bool := false
  err : Option GoErr := none
deriving DecidableEq, Repr

/-- The condition/connection phase of `cloudsqlExternal.Observe` (the switch
on `cr.Status.AtProvider.State`): Runnable sets Available, marks bindable,
and derives connection details; Creating sets Creating; the four
failure/suspended/maintenance/unknown states set Unavailable; any other
state string falls through the switch untouched. -/
def cloudsqlObservePhase (env : CloudsqlEnv) (cr : CloudsqlInstance)
    (upToDate : Bool) (kubeUpdated : Bool) : ObserveResult CloudsqlInstance :=
  if cr.atProvider.state = StateRunnable then
    let cr1 := { cr with readyCondition := some .available }
    let cr2 := if cr1.bound then cr1 else { cr1 with bindable := true }
    match getConnectionDetails env cr2 with
    | .error e =>
      { record := cr2, kubeUpdated := kubeUpdated, connAttempted := true,
        err := some (.wrap errConnectionNotRetrieved e) }
    | .ok conn =>
      { record := cr2
        obs := { resourceExists := true, resourceUpToDate := upToDate,
                 connectionDetails := some conn }
        kubeUpdated := kubeUpdated, connAttempted := true }
  else if cr.atProvider.state = StateCreating then
    { record := { cr with readyCondition := some .creating }
      obs := { resourceExists := true, resourceUpToDate := upToDate }
      kubeUpdated := kubeUpdated }
  else if cr.atProvider.state = StateCreationFailed ∨
      cr.atProvider.state = StateSuspended ∨
      cr.atProvider.state = StateMaintenance ∨
      cr.atProvider.state = StateUnknownState then
    { record := { cr with readyCondition := some .unavailable }
      obs := { resourceExists := true, resourceUpToDate := upToDate }
      kubeUpdated := kubeUpdated }
  else
    { record := cr
      obs := { resourceExists := true, resourceUpToDate := upToDate }
      kubeUpdated := kubeUpdated }

/-- `cloudsqlExternal.Observe`: fetch the instance (NotFound is absorbed
into exists=false; other fetch errors are wrapped), copy the observation
into status, late-initialize the spec, compare the pre- and post-late-init
spec for the upToDate flag, durably persist the record when the spec
changed, then run the condition/connection phase. -/
def cloudsqlObserve (env : CloudsqlEnv) (cr : CloudsqlInstance) : ObserveResult CloudsqlInstance :=
  match env.dbGet with
  | .error e =>
    { record := cr, err := wrapErr errGetFailed (Ignore IsErrorNotFound (some e)) }
  | .ok inst =>
    let cr1 := { cr with atProvider := GenerateObservation inst }
    let currentSpec := cr1.forProvider
    let cr2 := { cr1 with forProvider := LateInitializeSpec cr1.forProvider inst }
    if currentSpec = cr2.forProvider then
      cloudsqlObservePhase env cr2 true false
    else
      match env.kubeUpdateErr with
      | some e =>
        { record := cr2, kubeUpdated := true,
          err := some (.wrap errManagedUpdateFailed e) }
      | none => cloudsqlObservePhase env cr2 false true

/-- Result of a Create call: the record, the provider-native payload
submitted to Insert (none when no Insert call was made), and the error. -/
structure CreateResult (ρ π : Type) where
  record : ρ
  inserted : Option π := none
  err : Option GoErr := none
deriving DecidableEq, Repr

/-- `cloudsqlExternal.Create`: translate the spec into a creation payload
tagged with the external name, submit it, absorb an "already exists"
outcome, and wrap any other insert failure. -/
def cloudsqlCreate (env : CloudsqlEnv) (cr : CloudsqlInstance) :
    CreateResult CloudsqlInstance DatabaseInstance :=
  { record := cr
    inserted := some (GenerateDatabaseInstance cr.forProvider cr.externalName)
    err := wrapErr errInsertFailed (Ignore IsErrorAlreadyExists env.insertErr) }

/-- Result of an Update call: the record, the connection details returned,
the account-update calls pushed, whether a Patch was submitted, and the
error. -/
structure UpdateResult (ρ : Type) where
  record : ρ
  conn : Option ConnectionDetails := none
  pushed : List SqlUser := []
  patched : Bool := false
  err : Option GoErr := none
deriving DecidableEq, Repr

/-- `cloudsqlExternal.Update`: rotate root credentials first; a rotation
failure aborts with a wrapped error and no Patch call; otherwise submit the
patch and return the rotation's connection details. -/
def cloudsqlUpdate (env : CloudsqlEnv) (cr : CloudsqlInstance) : UpdateResult CloudsqlInstance :=
  let r := updateRootCredentials env cr
  match r.err with
  | some e =>
    { record := cr, pushed := r.pushed, err := some (.wrap errUpdateRootFailed e) }
  | none =>
    { record := cr, conn := r.conn, pushed := r.pushed, patched := true,
      err := wrapErr errPatchFailed env.patchErr }

/-- Result of a Delete call: the record, whether the provider Delete was
invoked, and the error. -/
structure DeleteResult (ρ : Type) where
  record : ρ
  deleteCalled : Bool := false
  err : Option GoErr := none
deriving DecidableEq, Repr

/-- `cloudsqlExternal.Delete`: submit deletion; a NotFound outcome is
absorbed, any other failure is wrapped. -/
def cloudsqlDelete (env : CloudsqlEnv) (cr : CloudsqlInstance) : DeleteResult CloudsqlInstance :=
  { record := cr, deleteCalled := true,
    err := if IsErrorNotFoundO env.deleteErr then none
           else wrapErr errDeleteFailed env.deleteErr }

/-! ### Network data model (compute controller, src/unnamed/part_000). -/

/-- The declared network configuration (`v1alpha2.GCPNetworkSpec`, embedded
in the Network spec together with its required `Name`). -/
structure GCPNetworkSpec where
  name : String := ""
  iPv4Range : String := ""
  autoCreateSubnetworks : Bool := false
deriving DecidableEq, Repr

/-- The provider-native `googlecompute.Network` snapshot returned by
`Networks.Get`. -/
structure GCPNetwork where
  name : String := ""
  iPv4Range : String := ""
  autoCreateSubnetworks : Bool := false
deriving DecidableEq, Repr

/-- The observed network status (`v1alpha2.GCPNetworkStatus`). -/
structure GCPNetworkStatus where
  iPv4Range : String := ""
  autoCreateSubnetworks : Bool := false
deriving DecidableEq, Repr

/-- The Network managed record: declared spec (with its required name) and
observed status. -/
structure Network where
  specName : String := ""
  specNetwork : GCPNetworkSpec := {}
  statusNetwork : GCPNetworkStatus := {}
deriving DecidableEq, Repr

/-- Modelled from the spec: `v1alpha2.GenerateGCPNetworkStatus` (apis
package, not under src/) copies the provider snapshot into the status
sub-record. -/
def GenerateGCPNetworkStatus (o : GCPNetwork) : GCPNetworkStatus :=
  { iPv4Range := o.iPv4Range, autoCreateSubnetworks := o.autoCreateSubnetworks }

/-- Modelled from the spec: `v1alpha2.GenerateNetwork` (apis package, not
under src/) translates the declared network spec into a provider-native
payload. -/
def GenerateNetwork (s : GCPNetworkSpec) : GCPNetwork :=
  { name := s.name, iPv4Range := s.iPv4Range,
    autoCreateSubnetworks := s.autoCreateSubnetworks }

/-- The provider responses one network reconciliation pass can observe. -/
structure NetworkEnv where
  networksGet : Except GoErr GCPNetwork := .error (.api 404 "not found")
  insertErr : Option GoErr := none
  patchErr : Option GoErr := none
  deleteErr : Option GoErr := none

/-- `networkExternal.Observe`: a NotFound fetch is absorbed into
exists=false; any other fetch error is returned as-is (unwrapped); on
success the status sub-record is regenerated and the observation reports
only existence (the upToDate flag is left at its zero value, false). -/
def networkObserve (env : NetworkEnv) (cr : Network) : ObserveResult Network :=
  match env.networksGet with
  | .error e =>
    if IsErrorNotFound e then { record := cr, obs := { resourceExists := false } }
    else { record := cr, err := some e }
  | .ok observed =>
    { record := { cr with statusNetwork := GenerateGCPNetworkStatus observed }
      obs := { resourceExists := true } }

/-- `networkExternal.Create`: submit the insert payload; any insert failure,
including an "already exists" outcome, is returned as-is. -/
def networkCreate (env : NetworkEnv) (cr : Network) : CreateResult Network GCPNetwork :=
  { record := cr
    inserted := some (GenerateNetwork cr.specNetwork)
    err := env.insertErr }

/-- `networkExternal.Update`: submit the patch payload keyed by the declared
name; any patch failure is returned as-is. -/
def networkUpdate (env : NetworkEnv) (cr : Network) : UpdateResult Network :=
  match env.patchErr with
  | some e => { record := cr, patched := true, err := some e }
  | none => { record := cr, patched := true }

/-- `networkExternal.Delete`: submit deletion; a NotFound outcome is
absorbed, any other failure is returned as-is. -/
def networkDelete (env : NetworkEnv) (cr : Network) : DeleteResult Network :=
  { record := cr, deleteCalled := true,
    err := match env.deleteErr with
           | some e => if IsErrorNotFound e then none else some e
           | none => none }

/-! ### Connector embeddings. -/

/-- The resolved ProviderConfig: project identity (the credential-secret
reference is consumed opaquely by the client constructor). -/
structure Provider where
  projectID : String := ""
deriving DecidableEq, Repr

/-- The credential-store responses a Connect call can observe. -/
structure ConnectEnv where
  providerGet : Except GoErr Provider := .ok {}
  providerSecretGet : Except GoErr Secret := .ok {}
  newServiceErr : Option GoErr := none

/-- A bound external-client handle scoped to one project. -/
structure ClientHandle where
  projectID : String := ""
deriving DecidableEq, Repr

/-- Result of a Connect call: the record as left in memory, the bound client
if any, whether the credential store was consulted, and the error. -/
structure ConnectResult (ρ : Type) where
  record : ρ
  client : Option ClientHandle := none
  storeTouched : Bool := false
  err : Option GoErr := none
deriving DecidableEq, Repr

/-- `cloudsqlConnector.Connect`: resolve the provider, then its credential
secret, then construct the sqladmin service; each failure is wrapped with
its phase message. -/
def cloudsqlConnect (env : ConnectEnv) (cr : CloudsqlInstance) : ConnectResult CloudsqlInstance :=
  match env.providerGet with
  | .error e =>
    { record := cr, storeTouched := true, err := some (.wrap errProviderNotRetrieved e) }
  | .ok provider =>
    match env.providerSecretGet with
    | .error e =>
      { record := cr, storeTouched := true,
        err := some (.wrap errProviderSecretNotRetrieved e) }
    | .ok _ =>
      match env.newServiceErr with
      | some e =>
        { record := cr, storeTouched := true, err := some (.wrap errNewClientSQL e) }
      | none =>
        { record := cr, client := some { projectID := provider.projectID },
          storeTouched := true }

/-- `networkConnector.Connect`: reject an empty declared name before any
store access, then resolve the provider (wrapping the failure), acquire
provider credentials (failure passed through), and construct the compute
service (failure wrapped). -/
def networkConnect (env : ConnectEnv) (cr : Network) : ConnectResult Network :=
  if cr.specName = "" then
    { record := cr, err := some (.new errNameNotGiven) }
  else
    match env.providerGet with
    | .error e =>
      { record := cr, storeTouched := true, err := some (.wrap "cannot get provider" e) }
    | .ok provider =>
      match env.providerSecretGet with
      | .error e => { record := cr, storeTouched := true, err := some e }
      | .ok _ =>
        match env.newServiceErr with
        | some e =>
          { record := cr, storeTouched := true,
            err := some (.wrap errNewClientCompute e) }
        | none =>
          { record := cr, client := some { projectID := provider.projectID },
            storeTouched := true }

/-! ### Managed-resource dispatch (the Go dynamic type assertions). -/

/-- The `resource.Managed` argument each operation receives: either of the
two concrete record types. -/
inductive Managed where
  | cloudsql (cr : CloudsqlInstance)
  | network (cr : Network)
deriving DecidableEq, Repr

/-- `cloudsqlExternal.Observe` including the leading type assertion. -/
def cloudsqlObserveM (env : CloudsqlEnv) (mg : Managed) : ObserveResult Managed :=
  match mg with
  | .cloudsql cr =>
    let r := cloudsqlObserve env cr
    { record := .cloudsql r.record, obs := r.obs, kubeUpdated := r.kubeUpdated,
      connAttempted := r.connAttempted, err := r.err }
  | .network _ => { record := mg, err := some (.new errNotCloudsql) }

/-- `cloudsqlExternal.Create` including the leading type assertion. -/
def cloudsqlCreateM (env : CloudsqlEnv) (mg : Managed) :
    CreateResult Managed DatabaseInstance :=
  match mg with
  | .cloudsql cr =>
    let r := cloudsqlCreate env cr
    { record := .cloudsql r.record, inserted := r.inserted, err := r.err }
  | .network _ => { record := mg, err := some (.new errNotCloudsql) }

/-- `cloudsqlExternal.Update` including the leading type assertion. -/
def cloudsqlUpdateM (env : CloudsqlEnv) (mg : Managed) : UpdateResult Managed :=
  match mg with
  | .cloudsql cr =>
    let r := cloudsqlUpdate env cr
    { record := .cloudsql r.record, conn := r.conn, pushed := r.pushed,
      patched := r.patched, err := r.err }
  | .network _ => { record := mg, err := some (.new errNotCloudsql) }

/-- `cloudsqlExternal.Delete` including the leading type assertion. -/
def cloudsqlDeleteM (env : CloudsqlEnv) (mg : Managed) : DeleteResult Managed :=
  match mg with
  | .cloudsql cr =>
    let r := cloudsqlDelete env cr
    { record := .cloudsql r.record, deleteCalled := r.deleteCalled, err := r.err }
  | .network _ => { record := mg, err := some (.new errNotCloudsql) }

/-- `cloudsqlConnector.Connect` including the leading type assertion. -/
def cloudsqlConnectM (env : ConnectEnv) (mg : Managed) : ConnectResult Managed :=
  match mg with
  | .cloudsql cr =>
    let r := cloudsqlConnect env cr
    { record := .cloudsql r.record, client := r.client,
      storeTouched := r.storeTouched, err := r.err }
  | .network _ => { record := mg, err := some (.new errNotCloudsql) }

/-- `networkExternal.Observe` including the leading type assertion. -/
def networkObserveM (env : NetworkEnv) (mg : Managed) : ObserveResult Managed :=
  match mg with
  | .network cr =>
    let r := networkObserve env cr
    { record := .network r.record, obs := r.obs, kubeUpdated := r.kubeUpdated,
      connAttempted := r.connAttempted, err := r.err }
  | .cloudsql _ => { record := mg, err := some (.new errNotNetwork) }

/-- `networkExternal.Create` including the leading type assertion. -/
def networkCreateM (env : NetworkEnv) (mg : Managed) : CreateResult Managed GCPNetwork :=
  match mg with
  | .network cr =>
    let r := networkCreate env cr
    { record := .network r.record, inserted := r.inserted, err := r.err }
  | .cloudsql _ => { record := mg, err := some (.new errNotNetwork) }

/-- `networkExternal.Update` including the leading type assertion. -/
def networkUpdateM (env : NetworkEnv) (mg : Managed) : UpdateResult Managed :=
  match mg with
  | .network cr =>
    let r := networkUpdate env cr
    { record := .network r.record, conn := r.conn, pushed := r.pushed,
      patched := r.patched, err := r.err }
  | .cloudsql _ => { record := mg, err := some (.new errNotNetwork) }

/-- `networkExternal.Delete` including the leading type assertion. -/
def networkDeleteM (env : NetworkEnv) (mg : Managed) : DeleteResult Managed :=
  match mg with
  | .network cr =>
    let r := networkDelete env cr
    { record := .network r.record, deleteCalled := r.deleteCalled, err := r.err }
  | .cloudsql _ => { record := mg, err := some (.new errNotNetwork) }

/-- `networkConnector.Connect` including the leading type assertion. -/
def networkConnectM (env : ConnectEnv) (mg : Managed) : ConnectResult Managed :=
  match mg with
  | .network cr =>
    let r := networkConnect env cr
    { record := .network r.record, client := r.client,
      storeTouched := r.storeTouched, err := r.err }
  | .cloudsql _ => { record := mg, err := some (.new errNotNetwork) }

/-! ### Helper lemmas shared across the claim theorems. -/

/-- Checks whether a returned error is a wrapped (prefixed) error. -/
def isWrappedErr : Option GoErr → Bool
  | some (.wrap _ _) => true
  | _ => false

theorem generatePassword_length (n : Nat) (f : Nat → Char) :
    (GeneratePassword n f).length = n := by
  unfold GeneratePassword
  simp [String.length]

theorem addIP_password (m : ConnectionDetails) (ip : IPAddressStatus) :
    (addIP m ip).password = m.password := by
  unfold addIP
  dsimp only
  split
  · split <;> split <;> rfl
  · split <;> rfl

theorem foldl_addIP_password (l : List IPAddressStatus) (m : ConnectionDetails) :
    (l.foldl addIP m).password = m.password := by
  induction l generalizing m with
  | nil => rfl
  | cons ip rest ih => rw [List.foldl_cons, ih, addIP_password]

theorem getConnectionDetails_ok (env : CloudsqlEnv) (cr : CloudsqlInstance)
    (s : Secret) (hs : env.secretGet = .ok s) :
    getConnectionDetails env cr = .ok
      (cr.atProvider.ipAddresses.foldl addIP
        (if s.getData passwordKey ≠ "" then
          { username := some (DatabaseUserName cr),
            password := some (s.getData passwordKey) }
        else { username := some (DatabaseUserName cr) })) := by
  unfold getConnectionDetails
  rw [hs]
  simp only [Ignore]

theorem cloudsqlObserve_ok (env : CloudsqlEnv) (cr : CloudsqlInstance)
    (inst : DatabaseInstance) (hget : env.dbGet = .ok inst) :
    cloudsqlObserve env cr =
      (let cr2 : CloudsqlInstance :=
        { cr with atProvider := GenerateObservation inst,
                  forProvider := LateInitializeSpec cr.forProvider inst }
       if cr.forProvider = LateInitializeSpec cr.forProvider inst then
         cloudsqlObservePhase env cr2 true false
       else
         match env.kubeUpdateErr with
         | some e =>
           { record := cr2, kubeUpdated := true,
             err := some (.wrap errManagedUpdateFailed e) }
         | none => cloudsqlObservePhase env cr2 false true) := by
  unfold cloudsqlObserve
  rw [hget]

theorem observePhase_kubeUpdated (env : CloudsqlEnv) (cr : CloudsqlInstance)
    (u k : Bool) : (cloudsqlObservePhase env cr u k).kubeUpdated = k := by
  unfold cloudsqlObservePhase
  split
  · dsimp only
    split <;> rfl
  · split
    · rfl
    · split <;> rfl

theorem observePhase_upToDate (env : CloudsqlEnv) (cr : CloudsqlInstance)
    (u k : Bool) :
    (cloudsqlObservePhase env cr u k).err = none →
    (cloudsqlObservePhase env cr u k).obs.resourceUpToDate = u := by
  unfold cloudsqlObservePhase
  split
  · dsimp only
    split <;> intro h
    · simp at h
    · rfl
  · split
    · intro _
      rfl
    · split <;> intro _ <;> rfl

/-! ### Claim theorems. -/

/-- C9: late-initialization is monotone enrichment: every field the provider
reports that is unset in the spec is copied from the observation, and every
field the user has set is left unchanged even when it disagrees with the
observation. -/
theorem c9_lateInit_monotone (s : CloudsqlInstanceParameters) (o : DatabaseInstance) :
    (s.region = none → o.region ≠ "" →
      (LateInitializeSpec s o).region = some o.region) ∧
    (∀ v, s.region = some v → (LateInitializeSpec s o).region = some v) ∧
    (s.databaseVersion = none → o.databaseVersion ≠ "" →
      (LateInitializeSpec s o).databaseVersion = some o.databaseVersion) ∧
    (∀ v, s.databaseVersion = some v →
      (LateInitializeSpec s o).databaseVersion = some v) ∧
    (s.tier = none → o.tier ≠ "" → (LateInitializeSpec s o).tier = some o.tier) ∧
    (∀ v, s.tier = some v → (LateInitializeSpec s o).tier = some v) ∧
    (s.diskSizeGb = none → o.diskSizeGb ≠ 0 →
      (LateInitializeSpec s o).diskSizeGb = some o.diskSizeGb) ∧
    (∀ v, s.diskSizeGb = some v → (LateInitializeSpec s o).diskSizeGb = some v) := by
  refine ⟨?_, ?_, ?_, ?_, ?_, ?_, ?_, ?_⟩
  · intro h1 h2
    simp [LateInitializeSpec, lateInitString, h1, h2]
  · intro v hv
    simp [LateInitializeSpec, lateInitString, hv]
  · intro h1 h2
    simp [LateInitializeSpec, lateInitString, h1, h2]
  · intro v hv
    simp [LateInitializeSpec, lateInitString, hv]
  · intro h1 h2
    simp [LateInitializeSpec, lateInitString, h1, h2]
  · intro v hv
    simp [LateInitializeSpec, lateInitString, hv]
  · intro h1 h2
    simp [LateInitializeSpec, lateInitNat, h1, h2]
  · intro v hv
    simp [LateInitializeSpec, lateInitNat, hv]

/-- C9 witness: a concrete spec with region unset and tier user-set, against
an observation reporting both. -/
theorem c9_lateInit_monotone_witness :
    ({ tier := some "db-custom" : CloudsqlInstanceParameters }.region = none →
      ({ region := "us-central1", tier := "db-n1" : DatabaseInstance }).region ≠ "" →
      (LateInitializeSpec { tier := some "db-custom" }
        { region := "us-central1", tier := "db-n1" }).region = some "us-central1") ∧
    ((LateInitializeSpec { tier := some "db-custom" }
        { region := "us-central1", tier := "db-n1" }).tier = some "db-custom") :=
  ⟨fun h1 h2 => (c9_lateInit_monotone { tier := some "db-custom" }
      { region := "us-central1", tier := "db-n1" }).1 h1 h2,
   (c9_lateInit_monotone { tier := some "db-custom" }
      { region := "us-central1", tier := "db-n1" }).2.2.2.2.2.1 "db-custom" rfl⟩

/-- C10: every lifecycle operation of both controllers, handed a managed
record of the wrong concrete type, returns the type-mismatch error
immediately: the result is independent of the provider/store environment,
the record is unchanged, and every side-effect trace flag is at its
default. -/
theorem c10_type_mismatch_guard :
    (∀ (env : CloudsqlEnv) (n : Network),
      cloudsqlObserveM env (.network n) =
        { record := .network n, err := some (.new errNotCloudsql) }) ∧
    (∀ (env : CloudsqlEnv) (n : Network),
      cloudsqlCreateM env (.network n) =
        { record := .network n, err := some (.new errNotCloudsql) }) ∧
    (∀ (env : CloudsqlEnv) (n : Network),
      cloudsqlUpdateM env (.network n) =
        { record := .network n, err := some (.new errNotCloudsql) }) ∧
    (∀ (env : CloudsqlEnv) (n : Network),
      cloudsqlDeleteM env (.network n) =
        { record := .network n, err := some (.new errNotCloudsql) }) ∧
    (∀ (env : ConnectEnv) (n : Network),
      cloudsqlConnectM env (.network n) =
        { record := .network n, err := some (.new errNotCloudsql) }) ∧
    (∀ (env : NetworkEnv) (c : CloudsqlInstance),
      networkObserveM env (.cloudsql c) =
        { record := .cloudsql c, err := some (.new errNotNetwork) }) ∧
    (∀ (env : NetworkEnv) (c : CloudsqlInstance),
      networkCreateM env (.cloudsql c) =
        { record := .cloudsql c, err := some (.new errNotNetwork) }) ∧
    (∀ (env : NetworkEnv) (c : CloudsqlInstance),
      networkUpdateM env (.cloudsql c) =
        { record := .cloudsql c, err := some (.new errNotNetwork) }) ∧
    (∀ (env : NetworkEnv) (c : CloudsqlInstance),
      networkDeleteM env (.cloudsql c) =
        { record := .cloudsql c, err := some (.new errNotNetwork) }) ∧
    (∀ (env : ConnectEnv) (c : CloudsqlInstance),
      networkConnectM env (.cloudsql c) =
        { record := .cloudsql c, err := some (.new errNotNetwork) }) :=
  ⟨fun _ _ => rfl, fun _ _ => rfl, fun _ _ => rfl, fun _ _ => rfl, fun _ _ => rfl,
   fun _ _ => rfl, fun _ _ => rfl, fun _ _ => rfl, fun _ _ => rfl, fun _ _ => rfl⟩

/-- C8: both Delete operations absorb a provider NotFound outcome into
success; any other provider failure is returned as an error (wrapped with
the delete message by the database controller, as-is by the network
controller). -/
theorem c8_delete_idempotent :
    (∀ (env : CloudsqlEnv) (cr : CloudsqlInstance) (e : GoErr),
      env.deleteErr = some e → IsErrorNotFound e = true →
      (cloudsqlDelete env cr).err = none) ∧
    (∀ (env : CloudsqlEnv) (cr : CloudsqlInstance) (e : GoErr),
      env.deleteErr = some e → IsErrorNotFound e = false →
      (cloudsqlDelete env cr).err = some (.wrap errDeleteFailed e)) ∧
    (∀ (env : NetworkEnv) (cr : Network) (e : GoErr),
      env.deleteErr = some e → IsErrorNotFound e = true →
      (networkDelete env cr).err = none) ∧
    (∀ (env : NetworkEnv) (cr : Network) (e : GoErr),
      env.deleteErr = some e → IsErrorNotFound e = false →
      (networkDelete env cr).err = some e) := by
  refine ⟨?_, ?_, ?_, ?_⟩ <;>
    (intro env cr e he hnf;
     simp [cloudsqlDelete, networkDelete, IsErrorNotFoundO, wrapErr, he, hnf])

/-- C8 witness: a 404 delete outcome is absorbed by both controllers, and a
403 outcome is surfaced by both. -/
theorem c8_delete_idempotent_witness :
    (cloudsqlDelete { deleteErr := some (.api 404 "gone") } {}).err = none ∧
    (cloudsqlDelete { deleteErr := some (.api 403 "denied") } {}).err =
      some (.wrap errDeleteFailed (.api 403 "denied")) ∧
    (networkDelete { deleteErr := some (.api 404 "gone") } {}).err = none ∧
    (networkDelete { deleteErr := some (.api 403 "denied") } {}).err =
      some (.api 403 "denied") :=
  ⟨c8_delete_idempotent.1 _ {} (.api 404 "gone") rfl rfl,
   c8_delete_idempotent.2.1 _ {} (.api 403 "denied") rfl rfl,
   c8_delete_idempotent.2.2.1 _ {} (.api 404 "gone") rfl rfl,
   c8_delete_idempotent.2.2.2 _ {} (.api 403 "denied") rfl rfl⟩

/-- C2 counterexample: the network controller's Create does not absorb an
"already exists" outcome. First Create succeeds; the retry receives a 409
"already exists" response and returns it as an error, contradicting the
claim that both calls return no error. -/
theorem c2_create_counterexample :
    (networkCreate {} { specName := "n" }).err = none ∧
    (networkCreate { insertErr := some (.api 409 "already exists") }
        { specName := "n" }).err = some (.api 409 "already exists") :=
  ⟨rfl, rfl⟩

/-- C2 amended: the database-instance Create treats a provider-reported
"already exists" outcome as success, so a Create retry that receives an
already-exists response returns no error on either call; the network
Create returns any insert failure, including already-exists, as an error. -/
theorem c2_create_already_exists (env1 env2 : CloudsqlEnv) (cr : CloudsqlInstance)
    (e : GoErr) (h1 : env1.insertErr = none) (h2 : env2.insertErr = some e)
    (he : IsErrorAlreadyExists e = true) :
    (cloudsqlCreate env1 cr).err = none ∧
    (cloudsqlCreate env2 cr).err = none ∧
    (∀ (nenv : NetworkEnv) (ncr : Network),
      (networkCreate nenv ncr).err = nenv.insertErr) := by
  refine ⟨?_, ?_, fun _ _ => rfl⟩
  · simp [cloudsqlCreate, h1, Ignore, wrapErr]
  · simp [cloudsqlCreate, h2, Ignore, he, wrapErr]

/-- C2 witness: a concrete Create retry against a 409 response on the
database-instance controller. -/
theorem c2_create_already_exists_witness :
    (cloudsqlCreate {} {}).err = none ∧
    (cloudsqlCreate { insertErr := some (.api 409 "instance exists") } {}).err = none ∧
    (∀ (nenv : NetworkEnv) (ncr : Network),
      (networkCreate nenv ncr).err = nenv.insertErr) :=
  c2_create_already_exists {} { insertErr := some (.api 409 "instance exists") } {}
    (.api 409 "instance exists") rfl rfl rfl

/-- C5 counterexample: a non-NotFound fetch failure on the network
controller's Observe is returned verbatim, not wrapped with any
observe-phase prefix. -/
theorem c5_observe_counterexample :
    (networkObserve { networksGet := .error (.api 500 "boom") } {}).err =
      some (.api 500 "boom") ∧
    isWrappedErr (networkObserve { networksGet := .error (.api 500 "boom") } {}).err
      = false := by
  constructor <;> rfl

/-- C5 amended: on a NotFound fetch both Observe implementations return
exists=false with no error and leave the record (in particular its status)
unchanged; any other fetch failure is returned as an error — wrapped with
the observe-phase prefix by the database controller, returned as-is by the
network controller. -/
theorem c5_observe_absent (env : CloudsqlEnv) (nenv : NetworkEnv) :
    (∀ (cr : CloudsqlInstance) (e : GoErr),
      env.dbGet = .error e → IsErrorNotFound e = true →
      cloudsqlObserve env cr = { record := cr }) ∧
    (∀ (cr : CloudsqlInstance) (e : GoErr),
      env.dbGet = .error e → IsErrorNotFound e = false →
      cloudsqlObserve env cr = { record := cr, err := some (.wrap errGetFailed e) }) ∧
    (∀ (cr : Network) (e : GoErr),
      nenv.networksGet = .error e → IsErrorNotFound e = true →
      networkObserve nenv cr = { record := cr }) ∧
    (∀ (cr : Network) (e : GoErr),
      nenv.networksGet = .error e → IsErrorNotFound e = false →
      networkObserve nenv cr = { record := cr, err := some e }) := by
  refine ⟨?_, ?_, ?_, ?_⟩ <;> intro cr e he hnf
  · unfold cloudsqlObserve
    rw [he]
    simp [Ignore, hnf, wrapErr]
  · unfold cloudsqlObserve
    rw [he]
    simp [Ignore, hnf, wrapErr]
  · unfold networkObserve
    rw [he]
    simp [hnf]
  · unfold networkObserve
    rw [he]
    simp [hnf]

/-- C5 witness: concrete NotFound and InternalError fetches against both
controllers. -/
theorem c5_observe_absent_witness :
    cloudsqlObserve { dbGet := .error (.api 404 "absent") } {} =
      { record := ({} : CloudsqlInstance) } ∧
    cloudsqlObserve { dbGet := .error (.api 500 "boom") } {} =
      { record := ({} : CloudsqlInstance),
        err := some (.wrap errGetFailed (.api 500 "boom")) } ∧
    networkObserve { networksGet := .error (.api 404 "absent") } {} =
      { record := ({} : Network) } ∧
    networkObserve { networksGet := .error (.api 500 "boom") } {} =
      { record := ({} : Network), err := some (.api 500 "boom") } :=
  ⟨(c5_observe_absent { dbGet := .error (.api 404 "absent") }
      { networksGet := .error (.api 404 "absent") }).1 {} _ rfl rfl,
   (c5_observe_absent { dbGet := .error (.api 500 "boom") }
      { networksGet := .error (.api 404 "absent") }).2.1 {} _ rfl rfl,
   (c5_observe_absent { dbGet := .error (.api 404 "absent") }
      { networksGet := .error (.api 404 "absent") }).2.2.1 {} _ rfl rfl,
   (c5_observe_absent { dbGet := .error (.api 404 "absent") }
      { networksGet := .error (.api 500 "boom") }).2.2.2 {} _ rfl rfl⟩

/-- C6: a failing credential-rotation step makes Update return the failure
wrapped with the root-credential prefix and suppresses the Patch call; in
particular, when no remote account matches the derived root username, the
rotation step fails with the user-not-found 404 error. -/
theorem c6_update_aborts_on_cred_failure (env : CloudsqlEnv) (cr : CloudsqlInstance) :
    (∀ e, (updateRootCredentials env cr).err = some e →
      (cloudsqlUpdate env cr).err = some (.wrap errUpdateRootFailed e) ∧
      (cloudsqlUpdate env cr).patched = false) ∧
    (∀ users, env.userList = .ok users →
      users.find? (fun u => u.name == DatabaseUserName cr) = none →
      (updateRootCredentials env cr).err =
        some (.api 404 ("user: " ++ DatabaseUserName cr ++ " is not found"))) := by
  constructor
  · intro e he
    constructor
    · simp only [cloudsqlUpdate]
      rw [he]
    · simp only [cloudsqlUpdate]
      rw [he]
  · intro users hl hf
    unfold updateRootCredentials
    rw [hl]
    dsimp only
    rw [hf]

/-- C6 witness: an empty remote account list, so the derived root user is
missing and the Update call aborts, unpatched, with the wrapped 404. -/
theorem c6_update_aborts_witness :
    (updateRootCredentials {} {}).err =
      some (.api 404 ("user: " ++ DatabaseUserName {} ++ " is not found")) ∧
    (cloudsqlUpdate {} {}).err =
      some (.wrap errUpdateRootFailed
        (.api 404 ("user: " ++ DatabaseUserName {} ++ " is not found"))) ∧
    (cloudsqlUpdate {} {}).patched = false :=
  ⟨(c6_update_aborts_on_cred_failure {} {}).2 [] rfl rfl,
   ((c6_update_aborts_on_cred_failure {} {}).1 _
     ((c6_update_aborts_on_cred_failure {} {}).2 [] rfl rfl)).1,
   ((c6_update_aborts_on_cred_failure {} {}).1 _
     ((c6_update_aborts_on_cred_failure {} {}).2 [] rfl rfl)).2⟩

theorem privateIPType_ne_publicIPType : PrivateIPType ≠ PublicIPType := by
  decide

theorem getConnectionDetails_base (env : CloudsqlEnv) (cr : CloudsqlInstance)
    (m : ConnectionDetails) (h : getConnectionDetails env cr = .ok m) :
    ∃ m0 : ConnectionDetails, m0.privateIP = none ∧ m0.publicIP = none ∧
      m0.endpoint = none ∧ m = cr.atProvider.ipAddresses.foldl addIP m0 := by
  unfold getConnectionDetails at h
  dsimp only at h
  split at h
  · simp at h
  · injection h with h
    subst h
    refine ⟨_, ?_, ?_, ?_, rfl⟩ <;> (split <;> rfl)

/-- C3: address-selection policy of `getConnectionDetails`: with a
private-type address P and a public-type address Q observed in either
order, the derived details publish endpoint=P, privateIP=P, publicIP=Q;
with only a public-type address Q, they publish endpoint=Q and publicIP=Q
and no privateIP key. -/
theorem c3_address_selection (env : CloudsqlEnv) (cr : CloudsqlInstance)
    (P Q : String) (hP : P ≠ "") :
    (∀ m, getConnectionDetails env
        { cr with atProvider := { cr.atProvider with ipAddresses :=
          [{ type := PrivateIPType, ipAddress := P },
           { type := PublicIPType, ipAddress := Q }] } } = .ok m →
      m.endpoint = some P ∧ m.privateIP = some P ∧ m.publicIP = some Q) ∧
    (∀ m, getConnectionDetails env
        { cr with atProvider := { cr.atProvider with ipAddresses :=
          [{ type := PublicIPType, ipAddress := Q },
           { type := PrivateIPType, ipAddress := P }] } } = .ok m →
      m.endpoint = some P ∧ m.privateIP = some P ∧ m.publicIP = some Q) ∧
    (∀ m, getConnectionDetails env
        { cr with atProvider := { cr.atProvider with ipAddresses :=
          [{ type := PublicIPType, ipAddress := Q }] } } = .ok m →
      m.endpoint = some Q ∧ m.publicIP = some Q ∧ m.privateIP = none) := by
  refine ⟨?_, ?_, ?_⟩ <;> intro m hm <;>
    obtain ⟨m0, h1, h2, h3, rfl⟩ := getConnectionDetails_base _ _ _ hm <;>
    simp [addIP, lenZero, h1, h2, h3, hP, privateIPType_ne_publicIPType,
      privateIPType_ne_publicIPType.symm]

/-- A concrete record carrying one private and one public observed address,
used to instantiate the address-selection theorem. -/
def c3ExampleRecord : CloudsqlInstance :=
  { atProvider := { ipAddresses :=
      [{ type := PrivateIPType, ipAddress := "10.0.0.2" },
       { type := PublicIPType, ipAddress := "1.2.3.4" }] } }

/-- The connection details derived for `c3ExampleRecord`. -/
def c3ExampleDetails : ConnectionDetails :=
  { username := some "root-", privateIP := some "10.0.0.2",
    publicIP := some "1.2.3.4", endpoint := some "10.0.0.2" }

/-- C3 witness: the address-selection theorem applied to a concrete private
address 10.0.0.2 and public address 1.2.3.4. -/
theorem c3_address_selection_witness :
    c3ExampleDetails.endpoint = some "10.0.0.2" ∧
    c3ExampleDetails.privateIP = some "10.0.0.2" ∧
    c3ExampleDetails.publicIP = some "1.2.3.4" :=
  (c3_address_selection {} {} "10.0.0.2" "1.2.3.4" (by decide)).1
    c3ExampleDetails (by decide)

theorem updateRootCredentials_ok (env : CloudsqlEnv) (cr : CloudsqlInstance)
    (users : List SqlUser) (u : SqlUser) (s : Secret)
    (hl : env.userList = .ok users)
    (hu : users.find? (fun x => x.name == DatabaseUserName cr) = some u)
    (hs : env.secretGet = .ok s) :
    updateRootCredentials env cr =
      (let conn := cr.atProvider.ipAddresses.foldl addIP
        (if s.getData passwordKey ≠ "" then
          { username := some (DatabaseUserName cr),
            password := some (s.getData passwordKey) }
        else { username := some (DatabaseUserName cr) })
       if conn.password.getD "" = "" then
         { conn := some { conn with
             password := some (GeneratePassword PasswordLength env.entropy) }
           pushed := [{ u with password := GeneratePassword PasswordLength env.entropy }]
           generatorCalled := true
           err := env.userUpdateErr }
       else
         { conn := some conn
           pushed := [{ u with password := conn.password.getD "" }]
           generatorCalled := false
           err := env.userUpdateErr }) := by
  unfold updateRootCredentials
  rw [hl]
  dsimp only
  rw [hu]
  dsimp only
  rw [getConnectionDetails_ok env cr s hs]

/-- C4: credential rotation reuses a non-empty persisted password verbatim
as the single password pushed to the provider, without invoking the
generator; with no persisted password, a freshly generated password of the
fixed policy length is staged into ConnectionDetails and pushed exactly
once. -/
theorem c4_credential_rotation (env : CloudsqlEnv) (cr : CloudsqlInstance)
    (users : List SqlUser) (u : SqlUser) (s : Secret)
    (hl : env.userList = .ok users)
    (hu : users.find? (fun x => x.name == DatabaseUserName cr) = some u)
    (hs : env.secretGet = .ok s) :
    (s.getData passwordKey ≠ "" →
      (updateRootCredentials env cr).pushed.map SqlUser.password =
        [s.getData passwordKey] ∧
      (updateRootCredentials env cr).generatorCalled = false ∧
      (updateRootCredentials env cr).pushed.length = 1) ∧
    (s.getData passwordKey = "" →
      (updateRootCredentials env cr).pushed.map SqlUser.password =
        [GeneratePassword PasswordLength env.entropy] ∧
      (GeneratePassword PasswordLength env.entropy).length = PasswordLength ∧
      (updateRootCredentials env cr).generatorCalled = true ∧
      (∃ c, (updateRootCredentials env cr).conn = some c ∧
        c.password = some (GeneratePassword PasswordLength env.entropy)) ∧
      (updateRootCredentials env cr).pushed.length = 1) := by
  rw [updateRootCredentials_ok env cr users u s hl hu hs]
  dsimp only
  constructor
  · intro hne
    rw [if_pos hne]
    rw [foldl_addIP_password]
    dsimp only
    rw [if_neg (by simpa using hne)]
    simp
  · intro hempty
    rw [if_neg (show ¬s.getData passwordKey ≠ "" from by simp [hempty])]
    rw [foldl_addIP_password]
    simp only [Option.getD]
    rw [if_pos trivial]
    refine ⟨rfl, generatePassword_length _ _, rfl, ⟨_, rfl, rfl⟩, rfl⟩

/-- C4 witness: rotation against a persisted password "secretpw" (reused
verbatim, generator unused) and against an empty secret (fresh password of
policy length pushed once). -/
theorem c4_credential_rotation_witness :
    ((updateRootCredentials
        { userList := .ok [{ name := "root-" }],
          secretGet := .ok { data := [(passwordKey, "secretpw")] } } {}).pushed.map
        SqlUser.password = ["secretpw"] ∧
      (updateRootCredentials
        { userList := .ok [{ name := "root-" }],
          secretGet := .ok { data := [(passwordKey, "secretpw")] } } {}).generatorCalled
        = false ∧
      (updateRootCredentials
        { userList := .ok [{ name := "root-" }],
          secretGet := .ok { data := [(passwordKey, "secretpw")] } } {}).pushed.length
        = 1) ∧
    ((updateRootCredentials { userList := .ok [{ name := "root-" }] } {}).pushed.map
        SqlUser.password =
        [GeneratePassword PasswordLength
          ({ userList := .ok [{ name := "root-" }] } : CloudsqlEnv).entropy] ∧
      (GeneratePassword PasswordLength
        ({ userList := .ok [{ name := "root-" }] } : CloudsqlEnv).entropy).length =
        PasswordLength ∧
      (updateRootCredentials { userList := .ok [{ name := "root-" }] } {}).generatorCalled
        = true ∧
      (∃ c, (updateRootCredentials { userList := .ok [{ name := "root-" }] } {}).conn =
          some c ∧
        c.password = some (GeneratePassword PasswordLength
          ({ userList := .ok [{ name := "root-" }] } : CloudsqlEnv).entropy)) ∧
      (updateRootCredentials { userList := .ok [{ name := "root-" }] } {}).pushed.length
        = 1) :=
  ⟨(c4_credential_rotation
      { userList := .ok [{ name := "root-" }],
        secretGet := .ok { data := [(passwordKey, "secretpw")] } } {}
      [{ name := "root-" }] { name := "root-" }
      { data := [(passwordKey, "secretpw")] } rfl (by decide) rfl).1 (by decide),
   (c4_credential_rotation { userList := .ok [{ name := "root-" }] } {}
      [{ name := "root-" }] { name := "root-" } {} rfl (by decide) rfl).2 (by decide)⟩

theorem state_distinct :
    StateCreating ≠ StateRunnable ∧
    StateCreationFailed ≠ StateRunnable ∧ StateSuspended ≠ StateRunnable ∧
    StateMaintenance ≠ StateRunnable ∧ StateUnknownState ≠ StateRunnable ∧
    StateCreationFailed ≠ StateCreating ∧ StateSuspended ≠ StateCreating ∧
    StateMaintenance ≠ StateCreating ∧ StateUnknownState ≠ StateCreating := by
  refine ⟨?_, ?_, ?_, ?_, ?_, ?_, ?_, ?_, ?_⟩ <;> decide

theorem observePhase_runnable (env : CloudsqlEnv) (cr : CloudsqlInstance)
    (u k : Bool) (h : cr.atProvider.state = StateRunnable) :
    (cloudsqlObservePhase env cr u k).record.readyCondition = some .available ∧
    (cloudsqlObservePhase env cr u k).connAttempted = true := by
  unfold cloudsqlObservePhase
  rw [if_pos h]
  dsimp only
  constructor
  · split <;> split <;> rfl
  · split <;> rfl

theorem observePhase_creating (env : CloudsqlEnv) (cr : CloudsqlInstance)
    (u k : Bool) (hne : cr.atProvider.state ≠ StateRunnable)
    (h : cr.atProvider.state = StateCreating) :
    cloudsqlObservePhase env cr u k =
      { record := { cr with readyCondition := some .creating }
        obs := { resourceExists := true, resourceUpToDate := u }
        kubeUpdated := k } := by
  unfold cloudsqlObservePhase
  rw [if_neg hne, if_pos h]

theorem observePhase_unavailable (env : CloudsqlEnv) (cr : CloudsqlInstance)
    (u k : Bool) (hne1 : cr.atProvider.state ≠ StateRunnable)
    (hne2 : cr.atProvider.state ≠ StateCreating)
    (h : cr.atProvider.state = StateCreationFailed ∨
      cr.atProvider.state = StateSuspended ∨
      cr.atProvider.state = StateMaintenance ∨
      cr.atProvider.state = StateUnknownState) :
    cloudsqlObservePhase env cr u k =
      { record := { cr with readyCondition := some .unavailable }
        obs := { resourceExists := true, resourceUpToDate := u }
        kubeUpdated := k } := by
  unfold cloudsqlObservePhase
  rw [if_neg hne1, if_neg hne2, if_pos h]

/-- C7: the observed lifecycle phase drives the condition set on the record
and whether connection details are derived: Runnable sets Available and is
the only phase attempting connection-detail derivation; Creating sets
Creating with no connection attempt; the creation-failed, suspended,
maintenance and unknown phases set Unavailable with no connection
attempt. -/
theorem c7_phase_conditions (env : CloudsqlEnv) (cr : CloudsqlInstance)
    (inst : DatabaseInstance) (hget : env.dbGet = .ok inst)
    (hreach : LateInitializeSpec cr.forProvider inst = cr.forProvider ∨
      env.kubeUpdateErr = none) :
    (inst.state = StateRunnable →
      (cloudsqlObserve env cr).record.readyCondition = some .available ∧
      (cloudsqlObserve env cr).connAttempted = true) ∧
    (inst.state = StateCreating →
      (cloudsqlObserve env cr).record.readyCondition = some .creating ∧
      (cloudsqlObserve env cr).connAttempted = false ∧
      (cloudsqlObserve env cr).obs.connectionDetails = none ∧
      (cloudsqlObserve env cr).err = none) ∧
    ((inst.state = StateCreationFailed ∨ inst.state = StateSuspended ∨
      inst.state = StateMaintenance ∨ inst.state = StateUnknownState) →
      (cloudsqlObserve env cr).record.readyCondition = some .unavailable ∧
      (cloudsqlObserve env cr).connAttempted = false ∧
      (cloudsqlObserve env cr).obs.connectionDetails = none ∧
      (cloudsqlObserve env cr).err = none) := by
  rw [cloudsqlObserve_ok env cr inst hget]
  dsimp only
  have hphase : ∀ w k : Bool,
    (inst.state = StateRunnable →
      (cloudsqlObservePhase env
        { cr with atProvider := GenerateObservation inst,
                  forProvider := LateInitializeSpec cr.forProvider inst } w k).record.readyCondition
        = some .available ∧
      (cloudsqlObservePhase env
        { cr with atProvider := GenerateObservation inst,
                  forProvider := LateInitializeSpec cr.forProvider inst } w k).connAttempted = true) ∧
    (inst.state = StateCreating →
      cloudsqlObservePhase env
        { cr with atProvider := GenerateObservation inst,
                  forProvider := LateInitializeSpec cr.forProvider inst } w k =
        { record :=
            { cr with atProvider := GenerateObservation inst,
                      forProvider := LateInitializeSpec cr.forProvider inst,
                      readyCondition := some .creating },
          obs := { resourceExists := true, resourceUpToDate := w },
          kubeUpdated := k }) ∧
    ((inst.state = StateCreationFailed ∨ inst.state = StateSuspended ∨
      inst.state = StateMaintenance ∨ inst.state = StateUnknownState) →
      cloudsqlObservePhase env
        { cr with atProvider := GenerateObservation inst,
                  forProvider := LateInitializeSpec cr.forProvider inst } w k =
        { record :=
            { cr with atProvider := GenerateObservation inst,
                      forProvider := LateInitializeSpec cr.forProvider inst,
                      readyCondition := some .unavailable },
          obs := { resourceExists := true, resourceUpToDate := w },
          kubeUpdated := k }) := by
    intro w k
    refine ⟨?_, ?_, ?_⟩
    · intro h
      exact observePhase_runnable env _ w k h
    · intro h
      exact observePhase_creating env _ w k
        (fun hc => state_distinct.1 (h.symm.trans hc)) h
    · intro h
      refine observePhase_unavailable env _ w k ?_ ?_ h
      · rcases h with h | h | h | h
        · exact fun hc => state_distinct.2.1 (h.symm.trans hc)
        · exact fun hc => state_distinct.2.2.1 (h.symm.trans hc)
        · exact fun hc => state_distinct.2.2.2.1 (h.symm.trans hc)
        · exact fun hc => state_distinct.2.2.2.2.1 (h.symm.trans hc)
      · rcases h with h | h | h | h
        · exact fun hc => state_distinct.2.2.2.2.2.1 (h.symm.trans hc)
        · exact fun hc => state_distinct.2.2.2.2.2.2.1 (h.symm.trans hc)
        · exact fun hc => state_distinct.2.2.2.2.2.2.2.1 (h.symm.trans hc)
        · exact fun hc => state_distinct.2.2.2.2.2.2.2.2 (h.symm.trans hc)
  by_cases hU : cr.forProvider = LateInitializeSpec cr.forProvider inst
  · rw [if_pos hU]
    have h := hphase true false
    refine ⟨fun hs => (h.1 hs), fun hs => ?_, fun hs => ?_⟩
    · rw [h.2.1 hs]
      exact ⟨rfl, rfl, rfl, rfl⟩
    · rw [h.2.2 hs]
      exact ⟨rfl, rfl, rfl, rfl⟩
  · rw [if_neg hU]
    rcases hreach with hreach | hreach
    · exact absurd hreach.symm hU
    · rw [hreach]
      dsimp only
      have h := hphase false true
      refine ⟨fun hs => (h.1 hs), fun hs => ?_, fun hs => ?_⟩
      · rw [h.2.1 hs]
        exact ⟨rfl, rfl, rfl, rfl⟩
      · rw [h.2.2 hs]
        exact ⟨rfl, rfl, rfl, rfl⟩

/-- C7 witness: an instance observed in the Creating phase sets the
Creating condition with no connection attempt, no connection details and
no error. -/
theorem c7_phase_conditions_witness :
    (cloudsqlObserve { dbGet := .ok { state := StateCreating } } {}).record.readyCondition
      = some .creating ∧
    (cloudsqlObserve { dbGet := .ok { state := StateCreating } } {}).connAttempted = false ∧
    (cloudsqlObserve { dbGet := .ok { state := StateCreating } } {}).obs.connectionDetails
      = none ∧
    (cloudsqlObserve { dbGet := .ok { state := StateCreating } } {}).err = none :=
  (c7_phase_conditions { dbGet := .ok { state := StateCreating } } {}
    { state := StateCreating } rfl (Or.inl (by decide))).2.1 rfl

/-- C1 counterexample: the network controller's Observe performs no
late-initialization (record.spec is returned unchanged on a successful
fetch), yet it reports upToDate = false, contradicting the claimed
iff between upToDate and an unchanged spec. -/
theorem c1_uptodate_counterexample :
    (networkObserve { networksGet := .ok { name := "default" } }
      { specName := "default" }).err = none ∧
    (networkObserve { networksGet := .ok { name := "default" } }
      { specName := "default" }).obs.resourceExists = true ∧
    (networkObserve { networksGet := .ok { name := "default" } }
      { specName := "default" }).record.specName = "default" ∧
    (networkObserve { networksGet := .ok { name := "default" } }
      { specName := "default" }).record.specNetwork = ({} : GCPNetworkSpec) ∧
    (networkObserve { networksGet := .ok { name := "default" } }
      { specName := "default" }).obs.resourceUpToDate = false :=
  ⟨rfl, rfl, rfl, rfl, rfl⟩

/-- C1 amended: for the database-instance controller, every Observe that
fetches successfully and returns without error reports upToDate = true iff
late-initialization left record.spec unchanged, and whenever the spec did
change, the updated record was durably persisted (kube update issued and
succeeded) before returning; the network controller's Observe never touches
record.spec and always reports upToDate = false. -/
theorem c1_uptodate_writeback (env : CloudsqlEnv) (cr : CloudsqlInstance)
    (inst : DatabaseInstance) (hget : env.dbGet = .ok inst)
    (hok : (cloudsqlObserve env cr).err = none) :
    ((cloudsqlObserve env cr).obs.resourceUpToDate = true ↔
      LateInitializeSpec cr.forProvider inst = cr.forProvider) ∧
    (LateInitializeSpec cr.forProvider inst ≠ cr.forProvider →
      (cloudsqlObserve env cr).kubeUpdated = true ∧ env.kubeUpdateErr = none) ∧
    (∀ (nenv : NetworkEnv) (ncr : Network),
      (networkObserve nenv ncr).obs.resourceUpToDate = false ∧
      (networkObserve nenv ncr).record.specName = ncr.specName ∧
      (networkObserve nenv ncr).record.specNetwork = ncr.specNetwork) := by
  have hnet : ∀ (nenv : NetworkEnv) (ncr : Network),
      (networkObserve nenv ncr).obs.resourceUpToDate = false ∧
      (networkObserve nenv ncr).record.specName = ncr.specName ∧
      (networkObserve nenv ncr).record.specNetwork = ncr.specNetwork := by
    intro nenv ncr
    unfold networkObserve
    split
    · split <;> exact ⟨rfl, rfl, rfl⟩
    · exact ⟨rfl, rfl, rfl⟩
  rw [cloudsqlObserve_ok env cr inst hget] at hok ⊢
  dsimp only at hok ⊢
  by_cases hU : cr.forProvider = LateInitializeSpec cr.forProvider inst
  · rw [if_pos hU] at hok ⊢
    refine ⟨⟨fun _ => hU.symm, fun _ => ?_⟩, fun hne => absurd hU.symm hne, hnet⟩
    exact observePhase_upToDate env _ true false hok
  · rw [if_neg hU] at hok ⊢
    cases henv : env.kubeUpdateErr with
    | some e =>
      rw [henv] at hok
      simp at hok
    | none =>
      rw [henv] at hok
      dsimp only at hok ⊢
      refine ⟨⟨fun hTrue => ?_, fun hEq => absurd hEq.symm hU⟩,
        fun _ => ⟨observePhase_kubeUpdated env _ false true, rfl⟩, hnet⟩
      have hfalse := observePhase_upToDate env _ false true hok
      rw [hTrue] at hfalse
      exact absurd hfalse (by simp)

/-- C1 witness: a fetch that reports a region the spec leaves unset, so
late-initialization changes the spec, upToDate is false and the record is
durably persisted before Observe returns. -/
theorem c1_uptodate_writeback_witness :
    (cloudsqlObserve
      { dbGet := .ok { state := StateCreating, region := "us-central1" } } {}).err
      = none ∧
    ((cloudsqlObserve
        { dbGet := .ok { state := StateCreating, region := "us-central1" } } {}).obs.resourceUpToDate
        = true ↔
      LateInitializeSpec ({} : CloudsqlInstance).forProvider
        { state := StateCreating, region := "us-central1" } =
        ({} : CloudsqlInstance).forProvider) ∧
    (cloudsqlObserve
      { dbGet := .ok { state := StateCreating, region := "us-central1" } } {}).kubeUpdated
      = true :=
  ⟨by decide,
   (c1_uptodate_writeback _ {} _ rfl (by decide)).1,
   ((c1_uptodate_writeback _ {} _ rfl (by decide)).2.1 (by decide)).1⟩
